import Mathlib

/-!
Verification of the case taxonomy and resolution engine of VectorDBBench
(`vectordb_bench/backend/cases.py`): the `CaseType` enumeration, the `Case`
descriptor with its derived `filters` predicate, the concrete case catalog,
and the `type2case` registry, together with the registry accessors
`case_cls`, `case_name` and `case_description`.

Numeric modelling: Python floats are modelled as exact rationals (`Rat`);
Python's `round` (round-half-to-even) is modelled by `pyRound`.  Failure is
modelled the way the code signals it: `case_cls` returns `none` for an
unregistered identifier (Python returns `None` from `dict.get`), and
`case_name` / `case_description` return an `Except.error "Case unsupported"`
(Python raises `ValueError("Case unsupported")`).
-/

/-- Names of the datasets used by the catalog (`Dataset` enum in
`backend/dataset.py`, which is outside the provided sources). -/
inductive Dataset where
  | GIST
  | SIFT
  | COHERE
  | OPENAI
  | LAION
deriving DecidableEq, Repr

/-- Modelled from the spec: the Dataset collaborator's handle.  The source
module `backend/dataset.py` is not provided; per the spec the reference
exposes a queryable record count (`data.size` in `cases.py`), which for a
manager requested at a given size reports that size once materialized. -/
structure DatasetData where
  name : Dataset
  size : Nat
deriving DecidableEq, Repr

/-- Modelled from the spec: `manager(requested_size) -> DatasetReference`.
The descriptor stores the handle and reads `data.size` from it. -/
structure DatasetManager where
  data : DatasetData
deriving DecidableEq, Repr

/-- Modelled from the spec: `Dataset.X.manager(n)` produces a reference to
dataset `X` at requested cardinality `n`. -/
def Dataset.manager (d : Dataset) (size : Nat) : DatasetManager :=
  ⟨⟨d, size⟩⟩

/-- The timeout constants of `vectordb_bench.config` referenced by
`cases.py`.  Their numeric values live outside the provided sources, so the
development is parametric in them; no claim depends on the values. -/
structure Config where
  CAPACITY_TIMEOUT_IN_SECONDS : Rat
  LOAD_TIMEOUT_DEFAULT : Rat
  OPTIMIZE_TIMEOUT_DEFAULT : Rat
  LOAD_TIMEOUT_768D_100M : Rat
  OPTIMIZE_TIMEOUT_768D_100M : Rat
  LOAD_TIMEOUT_768D_10M : Rat
  OPTIMIZE_TIMEOUT_768D_10M : Rat
  LOAD_TIMEOUT_768D_1M : Rat
  OPTIMIZE_TIMEOUT_768D_1M : Rat
  LOAD_TIMEOUT_1536D_500K : Rat
  OPTIMIZE_TIMEOUT_1536D_500K : Rat
  LOAD_TIMEOUT_1536D_5M : Rat
  OPTIMIZE_TIMEOUT_1536D_5M : Rat
deriving DecidableEq, Repr

/-- The `CaseType` enumeration of `cases.py` (values 1..33 plus the
`Custom = 100` sentinel). -/
inductive CaseType where
  | CapacityDim128
  | CapacityDim960
  | Performance768D100M
  | Performance768D10M
  | Performance768D1M
  | Performance768D10M1P
  | Performance768D1M1P
  | Performance768D10M99P
  | Performance768D1M99P
  | Performance1536D500K
  | Performance1536D5M
  | Performance1536D500K1P
  | Performance1536D5M1P
  | Performance1536D500K99P
  | Performance1536D5M99P
  | Performance960D100K90P
  | Performance128D500K90P
  | Performance960D100K80P
  | Performance128D500K80P
  | Performance960D100K70P
  | Performance128D500K70P
  | Performance960D100K60P
  | Performance128D500K60P
  | Performance960D100K50P
  | Performance128D500K50P
  | Performance960D100K40P
  | Performance128D500K40P
  | Performance960D100K30P
  | Performance128D500K30P
  | Performance960D100K20P
  | Performance128D500K20P
  | Performance960D100K10P
  | Performance128D500K10P
  | Custom
deriving DecidableEq, Repr

/-- The numeric enum value assigned to each identifier in `cases.py`. -/
def CaseType.value : CaseType → Nat
  | .CapacityDim128 => 1
  | .CapacityDim960 => 2
  | .Performance768D100M => 3
  | .Performance768D10M => 4
  | .Performance768D1M => 5
  | .Performance768D10M1P => 6
  | .Performance768D1M1P => 7
  | .Performance768D10M99P => 8
  | .Performance768D1M99P => 9
  | .Performance1536D500K => 10
  | .Performance1536D5M => 11
  | .Performance1536D500K1P => 12
  | .Performance1536D5M1P => 13
  | .Performance1536D500K99P => 14
  | .Performance1536D5M99P => 15
  | .Performance960D100K90P => 16
  | .Performance128D500K90P => 17
  | .Performance960D100K80P => 18
  | .Performance128D500K80P => 19
  | .Performance960D100K70P => 20
  | .Performance128D500K70P => 21
  | .Performance960D100K60P => 22
  | .Performance128D500K60P => 23
  | .Performance960D100K50P => 24
  | .Performance128D500K50P => 25
  | .Performance960D100K40P => 26
  | .Performance128D500K40P => 27
  | .Performance960D100K30P => 28
  | .Performance128D500K30P => 29
  | .Performance960D100K20P => 30
  | .Performance128D500K20P => 31
  | .Performance960D100K10P => 32
  | .Performance128D500K10P => 33
  | .Custom => 100

/-- The `CaseLabel` enumeration: `Load` or `Performance`. -/
inductive CaseLabel where
  | Load
  | Performance
deriving DecidableEq, Repr

/-- Python's built-in `round` on an exact rational value: round half to
even. -/
def pyRound (q : Rat) : Int :=
  if q - ((⌊q⌋ : Int) : Rat) < 1/2 then ⌊q⌋
  else if 1/2 < q - ((⌊q⌋ : Int) : Rat) then ⌊q⌋ + 1
  else if ⌊q⌋ % 2 = 0 then ⌊q⌋ else ⌊q⌋ + 1

/-- The dict returned by `Case.filters`: key `"metadata"` holds the string
`">=<ID>"` and key `"id"` holds the numeric threshold `ID`. -/
structure FilterDict where
  metadata : String
  id : Int
deriving DecidableEq, Repr

/-- The `Case` descriptor (pydantic `BaseModel` in the source). -/
structure Case where
  case_id : CaseType
  label : CaseLabel
  name : String
  description : String
  dataset : DatasetManager
  load_timeout : Rat
  optimize_timeout : Option Rat
  filter_rate : Option Rat
deriving DecidableEq, Repr

/-- The `filters` property of `Case`: when `filter_rate` is set, compute
`ID = round(filter_rate * dataset.data.size)` and return the dict
`\x7b"metadata": f">=\x7bID\x7d", "id": ID\x7d`; otherwise return `None`. -/
def Case.filters (c : Case) : Option FilterDict :=
  match c.filter_rate with
  | some r =>
    let ID : Int := pyRound (r * (c.dataset.data.size : Rat))
    some { metadata := ">=" ++ toString ID, id := ID }
  | none => none

/-- Modelled from the spec: the meaning of the derived predicate — a record
at ordinal position `pos` satisfies it iff its ordinal metadata value is
greater than or equal to the threshold (the consumers of the `filters` dict
live outside the provided sources). -/
def FilterDict.matches (p : FilterDict) (pos : Nat) : Bool :=
  p.id ≤ (pos : Int)

/-- How many of the `N` sequential ordinal positions `0, 1, ..., N-1`
satisfy the predicate `p`. -/
def countMatching (p : FilterDict) (N : Nat) : Nat :=
  ((List.range N).filter fun i => p.matches i).length
/-- Concrete catalog entry `CapacityDim960` from the source (CapacityCase defaults applied). -/
def CapacityDim960 (cfg : Config) : Case where
  case_id := CaseType.CapacityDim960
  label := CaseLabel.Load
  name := "Capacity Test (960 Dim Repeated)"
  description := "This case tests the vector database's loading capacity by repeatedly inserting large-dimension vectors (GIST 100K vectors, <b>960 dimensions</b>) until it is fully loaded.\nNumber of inserted vectors will be reported."
  dataset := Dataset.GIST.manager 100000
  load_timeout := cfg.CAPACITY_TIMEOUT_IN_SECONDS
  optimize_timeout := none
  filter_rate := none

/-- Concrete catalog entry `CapacityDim128` from the source (CapacityCase defaults applied). -/
def CapacityDim128 (cfg : Config) : Case where
  case_id := CaseType.CapacityDim128
  label := CaseLabel.Load
  name := "Capacity Test (128 Dim Repeated)"
  description := "This case tests the vector database's loading capacity by repeatedly inserting small-dimension vectors (SIFT 100K vectors, <b>128 dimensions</b>) until it is fully loaded.\nNumber of inserted vectors will be reported."
  dataset := Dataset.SIFT.manager 500000
  load_timeout := cfg.CAPACITY_TIMEOUT_IN_SECONDS
  optimize_timeout := none
  filter_rate := none

/-- Concrete catalog entry `Performance768D10M` from the source (PerformanceCase defaults applied). -/
def Performance768D10M (cfg : Config) : Case where
  case_id := CaseType.Performance768D10M
  label := CaseLabel.Performance
  name := "Search Performance Test (10M Dataset, 768 Dim)"
  description := "This case tests the search performance of a vector database with a large dataset (<b>Cohere 10M vectors</b>, 768 dimensions) at varying parallel levels.\nResults will show index building time, recall, and maximum QPS."
  dataset := Dataset.COHERE.manager 10000000
  load_timeout := cfg.LOAD_TIMEOUT_768D_10M
  optimize_timeout := some cfg.OPTIMIZE_TIMEOUT_768D_10M
  filter_rate := none

/-- Concrete catalog entry `Performance768D1M` from the source (PerformanceCase defaults applied). -/
def Performance768D1M (cfg : Config) : Case where
  case_id := CaseType.Performance768D1M
  label := CaseLabel.Performance
  name := "Search Performance Test (1M Dataset, 768 Dim)"
  description := "This case tests the search performance of a vector database with a medium dataset (<b>Cohere 1M vectors</b>, 768 dimensions) at varying parallel levels.\nResults will show index building time, recall, and maximum QPS."
  dataset := Dataset.COHERE.manager 1000000
  load_timeout := cfg.LOAD_TIMEOUT_768D_1M
  optimize_timeout := some cfg.OPTIMIZE_TIMEOUT_768D_1M
  filter_rate := none

/-- Concrete catalog entry `Performance768D10M1P` from the source (PerformanceCase defaults applied). -/
def Performance768D10M1P (cfg : Config) : Case where
  case_id := CaseType.Performance768D10M1P
  label := CaseLabel.Performance
  name := "Filtering Search Performance Test (10M Dataset, 768 Dim, Filter 1%)"
  description := "This case tests the search performance of a vector database with a large dataset (<b>Cohere 10M vectors</b>, 768 dimensions) under a low filtering rate (<b>1% vectors</b>), at varying parallel levels.\nResults will show index building time, recall, and maximum QPS."
  dataset := Dataset.COHERE.manager 10000000
  load_timeout := cfg.LOAD_TIMEOUT_768D_10M
  optimize_timeout := some cfg.OPTIMIZE_TIMEOUT_768D_10M
  filter_rate := some ((1 : Rat)/100)

/-- Concrete catalog entry `Performance768D1M1P` from the source (PerformanceCase defaults applied). -/
def Performance768D1M1P (cfg : Config) : Case where
  case_id := CaseType.Performance768D1M1P
  label := CaseLabel.Performance
  name := "Filtering Search Performance Test (1M Dataset, 768 Dim, Filter 1%)"
  description := "This case tests the search performance of a vector database with a medium dataset (<b>Cohere 1M vectors</b>, 768 dimensions) under a low filtering rate (<b>1% vectors</b>), at varying parallel levels.\nResults will show index building time, recall, and maximum QPS."
  dataset := Dataset.COHERE.manager 1000000
  load_timeout := cfg.LOAD_TIMEOUT_768D_1M
  optimize_timeout := some cfg.OPTIMIZE_TIMEOUT_768D_1M
  filter_rate := some ((1 : Rat)/100)

/-- Concrete catalog entry `Performance768D10M99P` from the source (PerformanceCase defaults applied). -/
def Performance768D10M99P (cfg : Config) : Case where
  case_id := CaseType.Performance768D10M99P
  label := CaseLabel.Performance
  name := "Filtering Search Performance Test (10M Dataset, 768 Dim, Filter 99%)"
  description := "This case tests the search performance of a vector database with a large dataset (<b>Cohere 10M vectors</b>, 768 dimensions) under a high filtering rate (<b>99% vectors</b>), at varying parallel levels.\nResults will show index building time, recall, and maximum QPS."
  dataset := Dataset.COHERE.manager 10000000
  load_timeout := cfg.LOAD_TIMEOUT_768D_10M
  optimize_timeout := some cfg.OPTIMIZE_TIMEOUT_768D_10M
  filter_rate := some ((99 : Rat)/100)

/-- Concrete catalog entry `Performance768D1M99P` from the source (PerformanceCase defaults applied). -/
def Performance768D1M99P (cfg : Config) : Case where
  case_id := CaseType.Performance768D1M99P
  label := CaseLabel.Performance
  name := "Filtering Search Performance Test (1M Dataset, 768 Dim, Filter 99%)"
  description := "This case tests the search performance of a vector database with a medium dataset (<b>Cohere 1M vectors</b>, 768 dimensions) under a high filtering rate (<b>99% vectors</b>), at varying parallel levels.\nResults will show index building time, recall, and maximum QPS."
  dataset := Dataset.COHERE.manager 1000000
  load_timeout := cfg.LOAD_TIMEOUT_768D_1M
  optimize_timeout := some cfg.OPTIMIZE_TIMEOUT_768D_1M
  filter_rate := some ((99 : Rat)/100)

/-- Concrete catalog entry `Performance768D100M` from the source (PerformanceCase defaults applied). -/
def Performance768D100M (cfg : Config) : Case where
  case_id := CaseType.Performance768D100M
  label := CaseLabel.Performance
  name := "Search Performance Test (100M Dataset, 768 Dim)"
  description := "This case tests the search performance of a vector database with a large 100M dataset (<b>LAION 100M vectors</b>, 768 dimensions), at varying parallel levels.\nResults will show index building time, recall, and maximum QPS."
  dataset := Dataset.LAION.manager 100000000
  load_timeout := cfg.LOAD_TIMEOUT_768D_100M
  optimize_timeout := some cfg.OPTIMIZE_TIMEOUT_768D_100M
  filter_rate := none

/-- Concrete catalog entry `Performance1536D500K` from the source (PerformanceCase defaults applied). -/
def Performance1536D500K (cfg : Config) : Case where
  case_id := CaseType.Performance1536D500K
  label := CaseLabel.Performance
  name := "Search Performance Test (500K Dataset, 1536 Dim)"
  description := "This case tests the search performance of a vector database with a medium 500K dataset (<b>OpenAI 500K vectors</b>, 1536 dimensions), at varying parallel levels.\nResults will show index building time, recall, and maximum QPS."
  dataset := Dataset.OPENAI.manager 500000
  load_timeout := cfg.LOAD_TIMEOUT_1536D_500K
  optimize_timeout := some cfg.OPTIMIZE_TIMEOUT_1536D_500K
  filter_rate := none

/-- Concrete catalog entry `Performance1536D5M` from the source (PerformanceCase defaults applied). -/
def Performance1536D5M (cfg : Config) : Case where
  case_id := CaseType.Performance1536D5M
  label := CaseLabel.Performance
  name := "Search Performance Test (5M Dataset, 1536 Dim)"
  description := "This case tests the search performance of a vector database with a medium 5M dataset (<b>OpenAI 5M vectors</b>, 1536 dimensions), at varying parallel levels.\nResults will show index building time, recall, and maximum QPS."
  dataset := Dataset.OPENAI.manager 5000000
  load_timeout := cfg.LOAD_TIMEOUT_1536D_5M
  optimize_timeout := some cfg.OPTIMIZE_TIMEOUT_1536D_5M
  filter_rate := none

/-- Concrete catalog entry `Performance1536D500K1P` from the source (PerformanceCase defaults applied). -/
def Performance1536D500K1P (cfg : Config) : Case where
  case_id := CaseType.Performance1536D500K1P
  label := CaseLabel.Performance
  name := "Filtering Search Performance Test (500K Dataset, 1536 Dim, Filter 1%)"
  description := "This case tests the search performance of a vector database with a large dataset (<b>OpenAI 500K vectors</b>, 1536 dimensions) under a low filtering rate (<b>1% vectors</b>), at varying parallel levels.\nResults will show index building time, recall, and maximum QPS."
  dataset := Dataset.OPENAI.manager 500000
  load_timeout := cfg.LOAD_TIMEOUT_1536D_500K
  optimize_timeout := some cfg.OPTIMIZE_TIMEOUT_1536D_500K
  filter_rate := some ((1 : Rat)/100)

/-- Concrete catalog entry `Performance1536D5M1P` from the source (PerformanceCase defaults applied). -/
def Performance1536D5M1P (cfg : Config) : Case where
  case_id := CaseType.Performance1536D5M1P
  label := CaseLabel.Performance
  name := "Filtering Search Performance Test (5M Dataset, 1536 Dim, Filter 1%)"
  description := "This case tests the search performance of a vector database with a large dataset (<b>OpenAI 5M vectors</b>, 1536 dimensions) under a low filtering rate (<b>1% vectors</b>), at varying parallel levels.\nResults will show index building time, recall, and maximum QPS."
  dataset := Dataset.OPENAI.manager 5000000
  load_timeout := cfg.LOAD_TIMEOUT_1536D_5M
  optimize_timeout := some cfg.OPTIMIZE_TIMEOUT_1536D_5M
  filter_rate := some ((1 : Rat)/100)

/-- Concrete catalog entry `Performance1536D500K99P` from the source (PerformanceCase defaults applied). -/
def Performance1536D500K99P (cfg : Config) : Case where
  case_id := CaseType.Performance1536D500K99P
  label := CaseLabel.Performance
  name := "Filtering Search Performance Test (500K Dataset, 1536 Dim, Filter 99%)"
  description := "This case tests the search performance of a vector database with a medium dataset (<b>OpenAI 500K vectors</b>, 1536 dimensions) under a high filtering rate (<b>99% vectors</b>), at varying parallel levels.\nResults will show index building time, recall, and maximum QPS."
  dataset := Dataset.OPENAI.manager 500000
  load_timeout := cfg.LOAD_TIMEOUT_1536D_500K
  optimize_timeout := some cfg.OPTIMIZE_TIMEOUT_1536D_500K
  filter_rate := some ((99 : Rat)/100)

/-- Concrete catalog entry `Performance1536D5M99P` from the source (PerformanceCase defaults applied). -/
def Performance1536D5M99P (cfg : Config) : Case where
  case_id := CaseType.Performance1536D5M99P
  label := CaseLabel.Performance
  name := "Filtering Search Performance Test (5M Dataset, 1536 Dim, Filter 99%)"
  description := "This case tests the search performance of a vector database with a medium dataset (<b>OpenAI 5M vectors</b>, 1536 dimensions) under a high filtering rate (<b>99% vectors</b>), at varying parallel levels.\nResults will show index building time, recall, and maximum QPS."
  dataset := Dataset.OPENAI.manager 5000000
  load_timeout := cfg.LOAD_TIMEOUT_1536D_5M
  optimize_timeout := some cfg.OPTIMIZE_TIMEOUT_1536D_5M
  filter_rate := some ((99 : Rat)/100)

/-- Concrete catalog entry `Performance960D100K90P` from the source (PerformanceCase defaults applied). -/
def Performance960D100K90P (cfg : Config) : Case where
  case_id := CaseType.Performance960D100K90P
  label := CaseLabel.Performance
  name := "Filtering Search Performance Test (100K Dataset, 960 Dim, Filter 90%)"
  description := "This case tests the search performance of a vector database with a small dataset (<b>Gist 100k vectors</b>, 960 dimensions) under a filtering rate (<b>90% vectors</b>), at varying parallel levels.\nResults will show index building time, recall, and maximum QPS."
  dataset := Dataset.GIST.manager 100000
  load_timeout := cfg.LOAD_TIMEOUT_DEFAULT
  optimize_timeout := some cfg.OPTIMIZE_TIMEOUT_DEFAULT
  filter_rate := some ((90 : Rat)/100)

/-- Concrete catalog entry `Performance128D500K90P` from the source (PerformanceCase defaults applied). -/
def Performance128D500K90P (cfg : Config) : Case where
  case_id := CaseType.Performance128D500K90P
  label := CaseLabel.Performance
  name := "Filtering Search Performance Test (500K Dataset, 128 Dim, Filter 90%)"
  description := "This case tests the search performance of a vector database with a small dataset (<b>Sift 500k vectors</b>, 128 dimensions) under a filtering rate (<b>90% vectors</b>), at varying parallel levels.\nResults will show index building time, recall, and maximum QPS."
  dataset := Dataset.SIFT.manager 500000
  load_timeout := cfg.LOAD_TIMEOUT_DEFAULT
  optimize_timeout := some cfg.OPTIMIZE_TIMEOUT_DEFAULT
  filter_rate := some ((90 : Rat)/100)

/-- Concrete catalog entry `Performance960D100K80P` from the source (PerformanceCase defaults applied). -/
def Performance960D100K80P (cfg : Config) : Case where
  case_id := CaseType.Performance960D100K80P
  label := CaseLabel.Performance
  name := "Filtering Search Performance Test (100K Dataset, 960 Dim, Filter 80%)"
  description := "This case tests the search performance of a vector database with a small dataset (<b>Gist 100k vectors</b>, 960 dimensions) under a filtering rate (<b>80% vectors</b>), at varying parallel levels.\nResults will show index building time, recall, and maximum QPS."
  dataset := Dataset.GIST.manager 100000
  load_timeout := cfg.LOAD_TIMEOUT_DEFAULT
  optimize_timeout := some cfg.OPTIMIZE_TIMEOUT_DEFAULT
  filter_rate := some ((80 : Rat)/100)

/-- Concrete catalog entry `Performance128D500K80P` from the source (PerformanceCase defaults applied). -/
def Performance128D500K80P (cfg : Config) : Case where
  case_id := CaseType.Performance128D500K80P
  label := CaseLabel.Performance
  name := "Filtering Search Performance Test (500K Dataset, 128 Dim, Filter 80%)"
  description := "This case tests the search performance of a vector database with a small dataset (<b>Sift 500k vectors</b>, 128 dimensions) under a filtering rate (<b>80% vectors</b>), at varying parallel levels.\nResults will show index building time, recall, and maximum QPS."
  dataset := Dataset.SIFT.manager 500000
  load_timeout := cfg.LOAD_TIMEOUT_DEFAULT
  optimize_timeout := some cfg.OPTIMIZE_TIMEOUT_DEFAULT
  filter_rate := some ((80 : Rat)/100)

/-- Concrete catalog entry `Performance960D100K70P` from the source (PerformanceCase defaults applied). -/
def Performance960D100K70P (cfg : Config) : Case where
  case_id := CaseType.Performance960D100K70P
  label := CaseLabel.Performance
  name := "Filtering Search Performance Test (100K Dataset, 960 Dim, Filter 70%)"
  description := "This case tests the search performance of a vector database with a small dataset (<b>Gist 100k vectors</b>, 960 dimensions) under a filtering rate (<b>70% vectors</b>), at varying parallel levels.\nResults will show index building time, recall, and maximum QPS."
  dataset := Dataset.GIST.manager 100000
  load_timeout := cfg.LOAD_TIMEOUT_DEFAULT
  optimize_timeout := some cfg.OPTIMIZE_TIMEOUT_DEFAULT
  filter_rate := some ((70 : Rat)/100)

/-- Concrete catalog entry `Performance128D500K70P` from the source (PerformanceCase defaults applied). -/
def Performance128D500K70P (cfg : Config) : Case where
  case_id := CaseType.Performance128D500K70P
  label := CaseLabel.Performance
  name := "Filtering Search Performance Test (500K Dataset, 128 Dim, Filter 70%)"
  description := "This case tests the search performance of a vector database with a small dataset (<b>Sift 500k vectors</b>, 128 dimensions) under a filtering rate (<b>70% vectors</b>), at varying parallel levels.\nResults will show index building time, recall, and maximum QPS."
  dataset := Dataset.SIFT.manager 500000
  load_timeout := cfg.LOAD_TIMEOUT_DEFAULT
  optimize_timeout := some cfg.OPTIMIZE_TIMEOUT_DEFAULT
  filter_rate := some ((70 : Rat)/100)

/-- Concrete catalog entry `Performance960D100K60P` from the source (PerformanceCase defaults applied). -/
def Performance960D100K60P (cfg : Config) : Case where
  case_id := CaseType.Performance960D100K60P
  label := CaseLabel.Performance
  name := "Filtering Search Performance Test (100K Dataset, 960 Dim, Filter 60%)"
  description := "This case tests the search performance of a vector database with a small dataset (<b>Gist 100k vectors</b>, 960 dimensions) under a filtering rate (<b>60% vectors</b>), at varying parallel levels.\nResults will show index building time, recall, and maximum QPS."
  dataset := Dataset.GIST.manager 100000
  load_timeout := cfg.LOAD_TIMEOUT_DEFAULT
  optimize_timeout := some cfg.OPTIMIZE_TIMEOUT_DEFAULT
  filter_rate := some ((60 : Rat)/100)

/-- Concrete catalog entry `Performance128D500K60P` from the source (PerformanceCase defaults applied). -/
def Performance128D500K60P (cfg : Config) : Case where
  case_id := CaseType.Performance128D500K60P
  label := CaseLabel.Performance
  name := "Filtering Search Performance Test (500K Dataset, 128 Dim, Filter 60%)"
  description := "This case tests the search performance of a vector database with a small dataset (<b>Sift 500k vectors</b>, 128 dimensions) under a filtering rate (<b>60% vectors</b>), at varying parallel levels.\nResults will show index building time, recall, and maximum QPS."
  dataset := Dataset.SIFT.manager 500000
  load_timeout := cfg.LOAD_TIMEOUT_DEFAULT
  optimize_timeout := some cfg.OPTIMIZE_TIMEOUT_DEFAULT
  filter_rate := some ((60 : Rat)/100)

/-- Concrete catalog entry `Performance960D100K50P` from the source (PerformanceCase defaults applied). -/
def Performance960D100K50P (cfg : Config) : Case where
  case_id := CaseType.Performance960D100K50P
  label := CaseLabel.Performance
  name := "Filtering Search Performance Test (100K Dataset, 960 Dim, Filter 50%)"
  description := "This case tests the search performance of a vector database with a small dataset (<b>Gist 100k vectors</b>, 960 dimensions) under a filtering rate (<b>50% vectors</b>), at varying parallel levels.\nResults will show index building time, recall, and maximum QPS."
  dataset := Dataset.GIST.manager 100000
  load_timeout := cfg.LOAD_TIMEOUT_DEFAULT
  optimize_timeout := some cfg.OPTIMIZE_TIMEOUT_DEFAULT
  filter_rate := some ((50 : Rat)/100)

/-- Concrete catalog entry `Performance128D500K50P` from the source (PerformanceCase defaults applied). -/
def Performance128D500K50P (cfg : Config) : Case where
  case_id := CaseType.Performance128D500K50P
  label := CaseLabel.Performance
  name := "Filtering Search Performance Test (500K Dataset, 128 Dim, Filter 50%)"
  description := "This case tests the search performance of a vector database with a small dataset (<b>Sift 500k vectors</b>, 128 dimensions) under a filtering rate (<b>50% vectors</b>), at varying parallel levels.\nResults will show index building time, recall, and maximum QPS."
  dataset := Dataset.SIFT.manager 500000
  load_timeout := cfg.LOAD_TIMEOUT_DEFAULT
  optimize_timeout := some cfg.OPTIMIZE_TIMEOUT_DEFAULT
  filter_rate := some ((50 : Rat)/100)

/-- Concrete catalog entry `Performance960D100K40P` from the source (PerformanceCase defaults applied). -/
def Performance960D100K40P (cfg : Config) : Case where
  case_id := CaseType.Performance960D100K40P
  label := CaseLabel.Performance
  name := "Filtering Search Performance Test (100K Dataset, 960 Dim, Filter 40%)"
  description := "This case tests the search performance of a vector database with a small dataset (<b>Gist 100k vectors</b>, 960 dimensions) under a filtering rate (<b>40% vectors</b>), at varying parallel levels.\nResults will show index building time, recall, and maximum QPS."
  dataset := Dataset.GIST.manager 100000
  load_timeout := cfg.LOAD_TIMEOUT_DEFAULT
  optimize_timeout := some cfg.OPTIMIZE_TIMEOUT_DEFAULT
  filter_rate := some ((40 : Rat)/100)

/-- Concrete catalog entry `Performance128D500K40P` from the source (PerformanceCase defaults applied). -/
def Performance128D500K40P (cfg : Config) : Case where
  case_id := CaseType.Performance128D500K40P
  label := CaseLabel.Performance
  name := "Filtering Search Performance Test (500K Dataset, 128 Dim, Filter 40%)"
  description := "This case tests the search performance of a vector database with a small dataset (<b>Sift 500k vectors</b>, 128 dimensions) under a filtering rate (<b>40% vectors</b>), at varying parallel levels.\nResults will show index building time, recall, and maximum QPS."
  dataset := Dataset.SIFT.manager 500000
  load_timeout := cfg.LOAD_TIMEOUT_DEFAULT
  optimize_timeout := some cfg.OPTIMIZE_TIMEOUT_DEFAULT
  filter_rate := some ((40 : Rat)/100)

/-- Concrete catalog entry `Performance960D100K30P` from the source (PerformanceCase defaults applied). -/
def Performance960D100K30P (cfg : Config) : Case where
  case_id := CaseType.Performance960D100K30P
  label := CaseLabel.Performance
  name := "Filtering Search Performance Test (100K Dataset, 960 Dim, Filter 30%)"
  description := "This case tests the search performance of a vector database with a small dataset (<b>Gist 100k vectors</b>, 960 dimensions) under a filtering rate (<b>30% vectors</b>), at varying parallel levels.\nResults will show index building time, recall, and maximum QPS."
  dataset := Dataset.GIST.manager 100000
  load_timeout := cfg.LOAD_TIMEOUT_DEFAULT
  optimize_timeout := some cfg.OPTIMIZE_TIMEOUT_DEFAULT
  filter_rate := some ((30 : Rat)/100)

/-- Concrete catalog entry `Performance128D500K30P` from the source (PerformanceCase defaults applied). -/
def Performance128D500K30P (cfg : Config) : Case where
  case_id := CaseType.Performance128D500K30P
  label := CaseLabel.Performance
  name := "Filtering Search Performance Test (500K Dataset, 128 Dim, Filter 30%)"
  description := "This case tests the search performance of a vector database with a small dataset (<b>Sift 500k vectors</b>, 128 dimensions) under a filtering rate (<b>30% vectors</b>), at varying parallel levels.\nResults will show index building time, recall, and maximum QPS."
  dataset := Dataset.SIFT.manager 500000
  load_timeout := cfg.LOAD_TIMEOUT_DEFAULT
  optimize_timeout := some cfg.OPTIMIZE_TIMEOUT_DEFAULT
  filter_rate := some ((30 : Rat)/100)

/-- Concrete catalog entry `Performance960D100K20P` from the source (PerformanceCase defaults applied). -/
def Performance960D100K20P (cfg : Config) : Case where
  case_id := CaseType.Performance960D100K20P
  label := CaseLabel.Performance
  name := "Filtering Search Performance Test (100K Dataset, 960 Dim, Filter 20%)"
  description := "This case tests the search performance of a vector database with a small dataset (<b>Gist 100k vectors</b>, 960 dimensions) under a filtering rate (<b>20% vectors</b>), at varying parallel levels.\nResults will show index building time, recall, and maximum QPS."
  dataset := Dataset.GIST.manager 100000
  load_timeout := cfg.LOAD_TIMEOUT_DEFAULT
  optimize_timeout := some cfg.OPTIMIZE_TIMEOUT_DEFAULT
  filter_rate := some ((20 : Rat)/100)

/-- Concrete catalog entry `Performance128D500K20P` from the source (PerformanceCase defaults applied). -/
def Performance128D500K20P (cfg : Config) : Case where
  case_id := CaseType.Performance128D500K20P
  label := CaseLabel.Performance
  name := "Filtering Search Performance Test (500K Dataset, 128 Dim, Filter 20%)"
  description := "This case tests the search performance of a vector database with a small dataset (<b>Sift 500k vectors</b>, 128 dimensions) under a filtering rate (<b>20% vectors</b>), at varying parallel levels.\nResults will show index building time, recall, and maximum QPS."
  dataset := Dataset.SIFT.manager 500000
  load_timeout := cfg.LOAD_TIMEOUT_DEFAULT
  optimize_timeout := some cfg.OPTIMIZE_TIMEOUT_DEFAULT
  filter_rate := some ((20 : Rat)/100)

/-- Concrete catalog entry `Performance960D100K10P` from the source (PerformanceCase defaults applied). -/
def Performance960D100K10P (cfg : Config) : Case where
  case_id := CaseType.Performance960D100K10P
  label := CaseLabel.Performance
  name := "Filtering Search Performance Test (100K Dataset, 960 Dim, Filter 10%)"
  description := "This case tests the search performance of a vector database with a small dataset (<b>Gist 100k vectors</b>, 960 dimensions) under a filtering rate (<b>10% vectors</b>), at varying parallel levels.\nResults will show index building time, recall, and maximum QPS."
  dataset := Dataset.GIST.manager 100000
  load_timeout := cfg.LOAD_TIMEOUT_DEFAULT
  optimize_timeout := some cfg.OPTIMIZE_TIMEOUT_DEFAULT
  filter_rate := some ((10 : Rat)/100)

/-- Concrete catalog entry `Performance128D500K10P` from the source (PerformanceCase defaults applied). -/
def Performance128D500K10P (cfg : Config) : Case where
  case_id := CaseType.Performance128D500K10P
  label := CaseLabel.Performance
  name := "Filtering Search Performance Test (500K Dataset, 128 Dim, Filter 10%)"
  description := "This case tests the search performance of a vector database with a small dataset (<b>Sift 500k vectors</b>, 128 dimensions) under a filtering rate (<b>10% vectors</b>), at varying parallel levels.\nResults will show index building time, recall, and maximum QPS."
  dataset := Dataset.SIFT.manager 500000
  load_timeout := cfg.LOAD_TIMEOUT_DEFAULT
  optimize_timeout := some cfg.OPTIMIZE_TIMEOUT_DEFAULT
  filter_rate := some ((10 : Rat)/100)
/-- The `type2case` registry of `cases.py`: the dict literal mapping each
non-Custom identifier to its zero-argument descriptor constructor, in
source order. -/
def type2case : List (CaseType × (Config → Case)) := [
  (CaseType.CapacityDim960, CapacityDim960),
  (CaseType.CapacityDim128, CapacityDim128),
  (CaseType.Performance768D100M, Performance768D100M),
  (CaseType.Performance768D10M, Performance768D10M),
  (CaseType.Performance768D1M, Performance768D1M),
  (CaseType.Performance768D10M1P, Performance768D10M1P),
  (CaseType.Performance768D1M1P, Performance768D1M1P),
  (CaseType.Performance768D10M99P, Performance768D10M99P),
  (CaseType.Performance768D1M99P, Performance768D1M99P),
  (CaseType.Performance1536D500K, Performance1536D500K),
  (CaseType.Performance1536D5M, Performance1536D5M),
  (CaseType.Performance1536D500K1P, Performance1536D500K1P),
  (CaseType.Performance1536D5M1P, Performance1536D5M1P),
  (CaseType.Performance1536D500K99P, Performance1536D500K99P),
  (CaseType.Performance1536D5M99P, Performance1536D5M99P),
  (CaseType.Performance960D100K90P, Performance960D100K90P),
  (CaseType.Performance128D500K90P, Performance128D500K90P),
  (CaseType.Performance960D100K80P, Performance960D100K80P),
  (CaseType.Performance128D500K80P, Performance128D500K80P),
  (CaseType.Performance960D100K70P, Performance960D100K70P),
  (CaseType.Performance128D500K70P, Performance128D500K70P),
  (CaseType.Performance960D100K60P, Performance960D100K60P),
  (CaseType.Performance128D500K60P, Performance128D500K60P),
  (CaseType.Performance960D100K50P, Performance960D100K50P),
  (CaseType.Performance128D500K50P, Performance128D500K50P),
  (CaseType.Performance960D100K40P, Performance960D100K40P),
  (CaseType.Performance128D500K40P, Performance128D500K40P),
  (CaseType.Performance960D100K30P, Performance960D100K30P),
  (CaseType.Performance128D500K30P, Performance128D500K30P),
  (CaseType.Performance960D100K20P, Performance960D100K20P),
  (CaseType.Performance128D500K20P, Performance128D500K20P),
  (CaseType.Performance960D100K10P, Performance960D100K10P),
  (CaseType.Performance128D500K10P, Performance128D500K10P)
]

/-- The `case_cls` property: `type2case.get(self)`, i.e. the registered
constructor when present and `none` (Python `None`) otherwise. -/
def CaseType.case_cls (t : CaseType) : Option (Config → Case) :=
  (type2case.find? fun p => p.1 = t).map Prod.snd

/-- The message of the `ValueError` raised by `case_name` and
`case_description` for an unsupported identifier. -/
def caseUnsupportedMsg : String := "Case unsupported"

/-- The `case_name` property: project the constructed descriptor's `name`,
or fail (Python raises `ValueError("Case unsupported")`). -/
def CaseType.case_name (cfg : Config) (t : CaseType) : Except String String :=
  match t.case_cls with
  | some c => Except.ok (c cfg).name
  | none => Except.error caseUnsupportedMsg

/-- The `case_description` property: project the constructed descriptor's
`description`, or fail like `case_name`. -/
def CaseType.case_description (cfg : Config) (t : CaseType) : Except String String :=
  match t.case_cls with
  | some c => Except.ok (c cfg).description
  | none => Except.error caseUnsupportedMsg

/-- A concrete config instance used to instantiate parametric theorems in
closed witness statements. -/
def testConfig : Config :=
  ⟨3600, 7200, 1800, 1, 2, 3, 4, 5, 6, 7, 8, 9, 10⟩

/-- A small concrete descriptor with a filter rate set, used as a concrete
instantiation point. -/
def tinyFilteredCase : Case where
  case_id := CaseType.Custom
  label := CaseLabel.Performance
  name := "tiny"
  description := "tiny filtered case"
  dataset := Dataset.GIST.manager 10
  load_timeout := 1
  optimize_timeout := some 1
  filter_rate := some ((50 : Rat)/100)

/-- A concrete descriptor whose filter rate 2 lies outside (0,1]. -/
def invalidRateCase : Case where
  case_id := CaseType.Custom
  label := CaseLabel.Performance
  name := "invalid rate"
  description := "rate outside the unit interval"
  dataset := Dataset.GIST.manager 10
  load_timeout := 1
  optimize_timeout := some 1
  filter_rate := some 2

/-- A concrete descriptor whose dataset reports record count 0. -/
def zeroSizeCase : Case where
  case_id := CaseType.Custom
  label := CaseLabel.Performance
  name := "zero size"
  description := "record count zero"
  dataset := Dataset.GIST.manager 0
  load_timeout := 1
  optimize_timeout := some 1
  filter_rate := some ((50 : Rat)/100)

/-! Helper lemmas (shared across the claim theorems). -/

theorem pyRound_intCast (n : Int) : pyRound ((n : Rat)) = n := by
  unfold pyRound
  norm_num

theorem pyRound_eq_intCast (q : Rat) (n : Int) (h : q = (n : Rat)) : pyRound q = n := by
  rw [h, pyRound_intCast]

theorem pyRound_nonneg (q : Rat) (hq : 0 ≤ q) : 0 ≤ pyRound q := by
  unfold pyRound
  have h0 : (0 : Int) ≤ ⌊q⌋ := Int.le_floor.mpr (by exact_mod_cast hq)
  split
  · exact h0
  · split
    · omega
    · split <;> omega

theorem pyRound_le (q : Rat) (N : Nat) (hq : q ≤ (N : Rat)) : pyRound q ≤ (N : Int) := by
  have hf : ⌊q⌋ ≤ (N : Int) := by
    have hm := Int.floor_mono hq
    rwa [Int.floor_natCast] at hm
  unfold pyRound
  split
  · exact hf
  · rename_i hfrac
    push_neg at hfrac
    have hq0 : ((⌊q⌋ : Int) : Rat) < q := by linarith [hfrac]
    have hflt : ⌊q⌋ < (N : Int) := by
      have hc : ((⌊q⌋ : Int) : Rat) < (N : Rat) := lt_of_lt_of_le hq0 hq
      exact_mod_cast hc
    split
    · omega
    · split <;> omega

theorem count_filter_ge (k N : Nat) :
    ((List.range N).filter fun i => decide (k ≤ i)).length = N - k := by
  induction N with
  | zero => simp
  | succ n ih =>
    rw [List.range_succ, List.filter_append, List.length_append, ih]
    by_cases h : k ≤ n <;> simp [h] <;> omega

theorem count_ge_int (T : Int) (N : Nat) :
    ((List.range N).filter fun (i : Nat) => decide (T ≤ (i : Int))).length = N - T.toNat := by
  have hfun : (fun (i : Nat) => decide (T ≤ (i : Int))) = (fun (i : Nat) => decide (T.toNat ≤ i)) := by
    funext i
    simp [Int.toNat_le]
  rw [hfun, count_filter_ge]

theorem filters_eq (c : Case) (r : Rat) (h : c.filter_rate = some r) :
    c.filters = some ⟨">=" ++ toString (pyRound (r * (c.dataset.data.size : Rat))),
      pyRound (r * (c.dataset.data.size : Rat))⟩ := by
  unfold Case.filters
  rw [h]

theorem filters_value (c : Case) (r : Rat) (n : Int) (h : c.filter_rate = some r)
    (hn : r * (c.dataset.data.size : Rat) = (n : Rat)) :
    c.filters = some ⟨">=" ++ toString n, n⟩ := by
  rw [filters_eq c r h, hn, pyRound_intCast]

theorem case_cls_mem (t : CaseType) (c : Config → Case) (h : t.case_cls = some c) :
    (t, c) ∈ type2case := by
  unfold CaseType.case_cls at h
  cases hf : type2case.find? fun p => p.1 = t with
  | none => rw [hf] at h; cases h
  | some pair =>
    rw [hf] at h
    simp at h
    have hmem := List.mem_of_find?_eq_some hf
    have hp := List.find?_some hf
    have h1 : pair.1 = t := by simpa using hp
    have h2 : pair = (t, c) := by
      cases pair
      simp_all
    rwa [h2] at hmem

/-! The claim theorems. -/

/-- C1: for every case descriptor with filter selectivity ratio `r` set and
dataset record count `N`, the derived predicate's threshold equals
`round(r * N)`, the predicate means "ordinal metadata value ≥ threshold"
(its metadata field is the string `">=<threshold>"`), the threshold lies in
`[0, N]` (no clamping is involved), and exactly `N - round(r*N)` of the `N`
sequential ordinal positions `0..N-1` satisfy it; in particular `r = 1/100`
with `N = 1000000` yields threshold `10000`, and `r = 99/100` with the same
`N` yields `990000`. -/
theorem caseFilters_threshold_count :
    (∀ (c : Case) (r : Rat), c.filter_rate = some r → 0 < r → r ≤ 1 →
      ∃ p, c.filters = some p
        ∧ p.id = pyRound (r * (c.dataset.data.size : Rat))
        ∧ p.metadata = ">=" ++ toString p.id
        ∧ 0 ≤ p.id ∧ p.id ≤ (c.dataset.data.size : Int)
        ∧ countMatching p c.dataset.data.size
            = c.dataset.data.size - (pyRound (r * (c.dataset.data.size : Rat))).toNat)
    ∧ pyRound ((1 : Rat)/100 * 1000000) = 10000
    ∧ pyRound ((99 : Rat)/100 * 1000000) = 990000 := by
  refine ⟨fun c r hr hr0 hr1 => ?_, ?_, ?_⟩
  · have h0 : 0 ≤ pyRound (r * (c.dataset.data.size : Rat)) :=
      pyRound_nonneg _ (mul_nonneg hr0.le (Nat.cast_nonneg _))
    have h1 : pyRound (r * (c.dataset.data.size : Rat)) ≤ (c.dataset.data.size : Int) :=
      pyRound_le _ _ (mul_le_of_le_one_left (Nat.cast_nonneg _) hr1)
    refine ⟨_, filters_eq c r hr, rfl, rfl, h0, h1, ?_⟩
    exact count_ge_int _ _
  · exact pyRound_eq_intCast _ 10000 (by norm_num)
  · exact pyRound_eq_intCast _ 990000 (by norm_num)

/-- C1 witness: the threshold/count property instantiated at the concrete
descriptor `tinyFilteredCase` (rate 1/2, record count 10). -/
theorem caseFilters_threshold_count_witness :
    ∃ p, tinyFilteredCase.filters = some p
      ∧ p.id = pyRound ((50 : Rat)/100 * (tinyFilteredCase.dataset.data.size : Rat))
      ∧ p.metadata = ">=" ++ toString p.id
      ∧ 0 ≤ p.id ∧ p.id ≤ (tinyFilteredCase.dataset.data.size : Int)
      ∧ countMatching p tinyFilteredCase.dataset.data.size
          = tinyFilteredCase.dataset.data.size
            - (pyRound ((50 : Rat)/100 * (tinyFilteredCase.dataset.data.size : Rat))).toNat :=
  caseFilters_threshold_count.1 tinyFilteredCase ((50 : Rat)/100) rfl (by norm_num) (by norm_num)

/-- C2: resolution (`case_cls`, i.e. `type2case.get`) yields no constructor
for `Custom` — the failure outcome the spec names `UnsupportedCaseError`,
signalled as `None` by `dict.get` — and, for every other identifier, yields
exactly the constructor registered for it in `type2case`. -/
theorem resolve_registered_or_none :
    ∀ t : CaseType,
      (t = CaseType.Custom → t.case_cls = none)
      ∧ (t ≠ CaseType.Custom → ∃ c, t.case_cls = some c ∧ (t, c) ∈ type2case) := by
  intro t
  cases t <;>
    first
      | exact ⟨fun _ => rfl, fun h => absurd rfl h⟩
      | exact ⟨fun h => CaseType.noConfusion h, fun _ => ⟨_, rfl, case_cls_mem _ _ rfl⟩⟩

/-- C2 witness: `case_cls` at `Custom` and at `CapacityDim128`. -/
theorem resolve_registered_or_none_witness :
    CaseType.Custom.case_cls = none
    ∧ ∃ c, CaseType.CapacityDim128.case_cls = some c
        ∧ (CaseType.CapacityDim128, c) ∈ type2case :=
  ⟨(resolve_registered_or_none CaseType.Custom).1 rfl,
   (resolve_registered_or_none CaseType.CapacityDim128).2 (by decide)⟩

/-- C3 counterexample: the claim says predicate derivation fails whenever
the record count is zero or the ratio lies outside (0,1].  At the concrete
descriptor `invalidRateCase` (rate 2, outside (0,1]) and at `zeroSizeCase`
(record count 0) the derivation does not fail: `filters` returns a
predicate in both situations. -/
theorem filters_invalid_inputs_cex :
    (invalidRateCase.filter_rate = some 2
      ∧ ¬(0 < (2 : Rat) ∧ (2 : Rat) ≤ 1)
      ∧ invalidRateCase.filters = some ⟨">=20", 20⟩)
    ∧ (zeroSizeCase.dataset.data.size = 0
      ∧ zeroSizeCase.filters = some ⟨">=0", 0⟩) := by
  refine ⟨⟨rfl, by norm_num, ?_⟩, rfl, ?_⟩
  · exact filters_value invalidRateCase 2 20 rfl (by norm_num [invalidRateCase, Dataset.manager])
  · exact filters_value zeroSizeCase ((50 : Rat)/100) 0 rfl
      (by norm_num [zeroSizeCase, Dataset.manager])

/-- C3 amended: the derivation performs no validation at all — for every
descriptor with a ratio set, whatever the ratio and record count
(including a zero count and ratios outside (0,1]), `filters` succeeds and
returns the predicate with threshold `round(r * N)`; no error is raised
and no clamping occurs. -/
theorem filters_no_validation :
    ∀ (c : Case) (r : Rat), c.filter_rate = some r →
      ∃ p, c.filters = some p ∧ p.id = pyRound (r * (c.dataset.data.size : Rat)) :=
  fun c r h => ⟨_, filters_eq c r h, rfl⟩

/-- C3 amended witness: the no-validation behavior at the zero-record-count
descriptor `zeroSizeCase`. -/
theorem filters_no_validation_witness :
    ∃ p, zeroSizeCase.filters = some p
      ∧ p.id = pyRound ((50 : Rat)/100 * (zeroSizeCase.dataset.data.size : Rat)) :=
  filters_no_validation zeroSizeCase ((50 : Rat)/100) rfl

/-- C4: every descriptor constructed through the registry has an optimize
timeout present when its label is `Performance` and absent when its label
is `Load`. -/
theorem catalog_optimize_timeout_by_label :
    ∀ (cfg : Config) (t : CaseType) (c : Config → Case), t.case_cls = some c →
      ((c cfg).label = CaseLabel.Performance → (c cfg).optimize_timeout.isSome = true)
      ∧ ((c cfg).label = CaseLabel.Load → (c cfg).optimize_timeout = none) := by
  intro cfg t c h
  cases t <;>
    first
      | exact Option.noConfusion h
      | (injection h with h
         subst h
         exact ⟨fun _ => rfl, fun hl => CaseLabel.noConfusion hl⟩)
      | (injection h with h
         subst h
         exact ⟨fun hl => CaseLabel.noConfusion hl, fun _ => rfl⟩)

/-- C4 witness: the Load-labeled `CapacityDim960` has an absent optimize
timeout and the Performance-labeled `Performance768D1M` has it present. -/
theorem catalog_optimize_timeout_by_label_witness :
    (CapacityDim960 testConfig).optimize_timeout = none
    ∧ (Performance768D1M testConfig).optimize_timeout.isSome = true :=
  ⟨(catalog_optimize_timeout_by_label testConfig CaseType.CapacityDim960 CapacityDim960 rfl).2 rfl,
   (catalog_optimize_timeout_by_label testConfig CaseType.Performance768D1M Performance768D1M rfl).1 rfl⟩

/-- C5: the registry holds exactly one constructor entry for every
non-Custom identifier and none for `Custom`; its key list has no
duplicates and its length equals the number of registered constructors. -/
theorem registry_complete_nodup :
    (type2case.map Prod.fst).Nodup
    ∧ (∀ t : CaseType, t ∈ type2case.map Prod.fst ↔ t ≠ CaseType.Custom)
    ∧ (type2case.map Prod.fst).length = type2case.length := by
  refine ⟨by decide, fun t => ?_, by simp⟩
  cases t <;> decide

/-- C6: for every non-Custom identifier, resolution succeeds and the
constructed descriptor's `case_id` field equals the identifier it was
resolved from. -/
theorem resolve_roundtrip_case_id :
    ∀ (cfg : Config) (t : CaseType), t ≠ CaseType.Custom →
      ∃ c, t.case_cls = some c ∧ (c cfg).case_id = t := by
  intro cfg t h
  cases t <;>
    first
      | exact absurd rfl h
      | exact ⟨_, rfl, rfl⟩

/-- C6 witness: the round-trip at `Performance1536D5M99P`. -/
theorem resolve_roundtrip_case_id_witness :
    ∃ c, CaseType.Performance1536D5M99P.case_cls = some c
      ∧ (c testConfig).case_id = CaseType.Performance1536D5M99P :=
  resolve_roundtrip_case_id testConfig CaseType.Performance1536D5M99P (by decide)

/-- C7: for every unsupported identifier (one whose resolution yields no
constructor, i.e. `Custom`), `case_name` and `case_description` fail with
the same "Case unsupported" error; for every supported identifier they
return the constructed descriptor's `name` and `description` fields. -/
theorem case_name_description_projection :
    ∀ (cfg : Config) (t : CaseType),
      (t.case_cls = none →
        t.case_name cfg = Except.error caseUnsupportedMsg
        ∧ t.case_description cfg = Except.error caseUnsupportedMsg)
      ∧ (∀ c, t.case_cls = some c →
        t.case_name cfg = Except.ok (c cfg).name
        ∧ t.case_description cfg = Except.ok (c cfg).description) := by
  intro cfg t
  refine ⟨fun h => ?_, fun c h => ?_⟩ <;>
    simp [CaseType.case_name, CaseType.case_description, h]

/-- C7 witness: the accessors at the unsupported `Custom` identifier and at
the supported `CapacityDim128` identifier. -/
theorem case_name_description_projection_witness :
    (CaseType.Custom.case_name testConfig = Except.error caseUnsupportedMsg
      ∧ CaseType.Custom.case_description testConfig = Except.error caseUnsupportedMsg)
    ∧ (CaseType.CapacityDim128.case_name testConfig
        = Except.ok (CapacityDim128 testConfig).name
      ∧ CaseType.CapacityDim128.case_description testConfig
        = Except.ok (CapacityDim128 testConfig).description) :=
  ⟨(case_name_description_projection testConfig CaseType.Custom).1 rfl,
   (case_name_description_projection testConfig CaseType.CapacityDim128).2 CapacityDim128 rfl⟩

/-- C8: for every descriptor, `filters` is `none` exactly when no filter
rate is set; the catalog entry for the 10M-record 1%-filter case yields a
predicate with threshold 100000, and both pure capacity (Load) entries
yield no predicate and an absent optimize timeout. -/
theorem filters_none_iff_catalog :
    (∀ c : Case, c.filters = none ↔ c.filter_rate = none)
    ∧ (∀ cfg : Config,
        (Performance768D10M1P cfg).filters = some ⟨">=100000", 100000⟩
        ∧ (CapacityDim960 cfg).filters = none
        ∧ (CapacityDim960 cfg).optimize_timeout = none
        ∧ (CapacityDim128 cfg).filters = none
        ∧ (CapacityDim128 cfg).optimize_timeout = none) := by
  constructor
  · intro c
    unfold Case.filters
    cases h : c.filter_rate <;> simp [h]
  · intro cfg
    refine ⟨?_, rfl, rfl, rfl, rfl⟩
    exact filters_value (Performance768D10M1P cfg) ((1 : Rat)/100) 100000 rfl
      (by norm_num [Performance768D10M1P, Dataset.manager])

/-- C9: resolving the same identifier twice and constructing the descriptor
each time yields descriptors with identical field values (construction is a
pure function of the identifier and the config constants). -/
theorem resolve_idempotent :
    ∀ (cfg : Config) (t : CaseType) (c₁ c₂ : Config → Case),
      t.case_cls = some c₁ → t.case_cls = some c₂ → c₁ cfg = c₂ cfg := by
  intro cfg t c₁ c₂ h₁ h₂
  rw [h₁] at h₂
  injection h₂ with h₂
  rw [h₂]

/-- C9 witness: two resolutions of `CapacityDim128` construct equal
descriptors. -/
theorem resolve_idempotent_witness :
    CapacityDim128 testConfig = CapacityDim128 testConfig :=
  resolve_idempotent testConfig CaseType.CapacityDim128 CapacityDim128 CapacityDim128 rfl rfl

/-- C10: whenever a filter rate is set, the two fields of the derived
predicate agree on one threshold: the numeric `id` field equals
`round(r * N)` computed from the record count read at the call, and the
`metadata` comparison string embeds that same number after ">=". -/
theorem filters_fields_agree :
    ∀ (c : Case) (r : Rat), c.filter_rate = some r →
      ∃ p, c.filters = some p
        ∧ p.id = pyRound (r * (c.dataset.data.size : Rat))
        ∧ p.metadata = ">=" ++ toString p.id :=
  fun c r h => ⟨_, filters_eq c r h, rfl, rfl⟩

/-- C10 witness: field agreement at the concrete `tinyFilteredCase`. -/
theorem filters_fields_agree_witness :
    ∃ p, tinyFilteredCase.filters = some p
      ∧ p.id = pyRound ((50 : Rat)/100 * (tinyFilteredCase.dataset.data.size : Rat))
      ∧ p.metadata = ">=" ++ toString p.id :=
  filters_fields_agree tinyFilteredCase ((50 : Rat)/100) rfl
